import Mathlib

/-!
Shallow embedding of the rustycord gateway core (shard connection
lifecycle, liveness/heartbeat check, envelope decoding, event dispatch,
login path) and proofs about the spec's claims over that embedding.

Source files embedded:
  src/rustcord/src/gateway/gateway.rs       (DiscordWebSocket, Manager)
  src/rustcord/src/gateway/shard_manager.rs (ShardManager loop body)
  src/src/gateway/response.rs               (DiscordOpCode, event names, envelopes)
  src/rustcord/src/handlers/message_handler.rs (handler registries)
  src/rustcord/src/http.rs, src/rustcord/src/client.rs (login path)

Timestamps are modelled as natural numbers of seconds (the code compares
Instant::elapsed().as_secs()); machine integers are modelled as Int with
explicit range checks where the code's serde types impose them; fallible
operations return Option/Except, and Rust panics / process exits are
explicit outcome constructors.
-/

namespace Rustycord

/-- Minimal JSON value model: the shapes serde_json::Value distinguishes
(numbers restricted to integers, which is all the embedded code inspects). -/
inductive Json where
  | null
  | bool (b : Bool)
  | num (n : Int)
  | str (s : String)
  | arr (elems : List Json)
  | obj (fields : List (String × Json))
deriving Repr

/-- Field lookup in a JSON object (first binding wins), `none` on non-objects. -/
def Json.getField (v : Json) (key : String) : Option Json :=
  match v with
  | .obj fields =>
    match fields.find? (fun p => p.fst == key) with
    | some p => some p.snd
    | none => none
  | _ => none

/-- A JSON number viewed as an i8, as serde does for the `op: i8` fields:
integer in [-128, 127], anything else fails. -/
def Json.asI8 (v : Json) : Option Int :=
  match v with
  | .num n => if -128 ≤ n ∧ n ≤ 127 then some n else none
  | _ => none

/-- A JSON number viewed as an i32 (for the `s: Option<i32>` field). -/
def Json.asI32 (v : Json) : Option Int :=
  match v with
  | .num n => if -2147483648 ≤ n ∧ n ≤ 2147483647 then some n else none
  | _ => none

/-- Gateway opcodes, mirroring `enum DiscordOpCode` in gateway/response.rs. -/
inductive DiscordOpCode where
  | Dispatch
  | Heartbeat
  | Identify
  | PresenceUpdate
  | VoiceStateUpdate
  | Resume
  | Reconnect
  | RequestGuildMembers
  | InvalidSession
  | Hello
  | HeartbeatAck
deriving Repr, DecidableEq

/-- The `PartialEq for DiscordOpCode` impl: equal exactly on matching
constructors (the catch-all arm returns false). -/
def DiscordOpCode.eq (a b : DiscordOpCode) : Bool :=
  match a, b with
  | .Dispatch, .Dispatch => true
  | .Heartbeat, .Heartbeat => true
  | .Identify, .Identify => true
  | .PresenceUpdate, .PresenceUpdate => true
  | .VoiceStateUpdate, .VoiceStateUpdate => true
  | .Resume, .Resume => true
  | .Reconnect, .Reconnect => true
  | .RequestGuildMembers, .RequestGuildMembers => true
  | .InvalidSession, .InvalidSession => true
  | .Hello, .Hello => true
  | .HeartbeatAck, .HeartbeatAck => true
  | _, _ => false

/-- `impl From<i8> for DiscordOpCode`: the eleven known numeric codes map to
their variants; every other value hits `panic!("Invalid OpCode")`, modelled
here as `none` (the caller turns it into a panic outcome). -/
def DiscordOpCode.fromI8 (value : Int) : Option DiscordOpCode :=
  match value with
  | 0 => some .Dispatch
  | 1 => some .Heartbeat
  | 2 => some .Identify
  | 3 => some .PresenceUpdate
  | 4 => some .VoiceStateUpdate
  | 6 => some .Resume
  | 7 => some .Reconnect
  | 8 => some .RequestGuildMembers
  | 9 => some .InvalidSession
  | 10 => some .Hello
  | 11 => some .HeartbeatAck
  | _ => none

/-- Gateway receive-event names, mirroring `enum GatewayReceiveEventName`
in gateway/response.rs (all variants, plus the `#[serde(untagged)]` unit
variant `Unknown`). -/
inductive GatewayReceiveEventName where
  | HELLO
  | READY
  | RESUMED
  | RECONNECT
  | INVALID_SESSION
  | APPLICATION_COMMAND_PERMISSIONS_UPDATE
  | AUTO_MODERATION_RULE_CREATE
  | AUTO_MODERATION_RULE_UPDATE
  | AUTO_MODERATION_RULE_DELETE
  | AUTO_MODERATION_ACTION_EXECUTION
  | CHANNEL_CREATE
  | CHANNEL_UPDATE
  | CHANNEL_DELETE
  | CHANNEL_PINS_UPDATE
  | THREAD_CREATE
  | THREAD_UPDATE
  | THREAD_DELETE
  | THREAD_LIST_SYNC
  | THREAD_MEMBER_UPDATE
  | THREAD_MEMBERS_UPDATE
  | ENTITLEMENT_CREATE
  | ENTITLEMENT_UPDATE
  | ENTITLEMENT_DELETE
  | GUILD_CREATE
  | GUILD_UPDATE
  | GUILD_DELETE
  | GUILD_AUDIT_LOG_ENTRY_CREATE
  | GUILD_BAN_ADD
  | GUILD_BAN_REMOVE
  | GUILD_EMOJIS_UPDATE
  | GUILD_STICKERS_UPDATE
  | GUILD_INTEGRATIONS_UPDATE
  | GUILD_MEMBER_ADD
  | GUILD_MEMBER_REMOVE
  | GUILD_MEMBER_UPDATE
  | GUILD_MEMBERS_CHUNK
  | GUILD_ROLE_CREATE
  | GUILD_ROLE_UPDATE
  | GUILD_ROLE_DELETE
  | GUILD_SCHEDULED_EVENT_CREATE
  | GUILD_SCHEDULED_EVENT_UPDATE
  | GUILD_SCHEDULED_EVENT_DELETE
  | GUILD_SCHEDULED_EVENT_USER_ADD
  | GUILD_SCHEDULED_EVENT_USER_REMOVE
  | INTEGRATION_CREATE
  | INTEGRATION_UPDATE
  | INTEGRATION_DELETE
  | INTERACTION_CREATE
  | INVITE_CREATE
  | INVITE_DELETE
  | MESSAGE_CREATE
  | MESSAGE_UPDATE
  | MESSAGE_DELETE
  | MESSAGE_DELETE_BULK
  | MESSAGE_REACTION_ADD
  | MESSAGE_REACTION_REMOVE
  | MESSAGE_REACTION_REMOVE_ALL
  | MESSAGE_REACTION_REMOVE_EMOJI
  | PRESENCE_UPDATE
  | STAGE_INSTANCE_CREATE
  | STAGE_INSTANCE_UPDATE
  | STAGE_INSTANCE_DELETE
  | TYPING_START
  | USER_UPDATE
  | VOICE_STATE_UPDATE
  | VOICE_SERVER_UPDATE
  | WEBHOOKS_UPDATE
  | MESSAGE_POLL_VOTE_ADD
  | MESSAGE_POLL_VOTE_REMOVE
  | Unknown
deriving Repr, DecidableEq

/-- The serde tag strings of the named (non-catch-all) variants of
`GatewayReceiveEventName`, in declaration order, paired with the variants. -/
def gatewayEventNamePairs : List (String × GatewayReceiveEventName) :=
  [("HELLO", .HELLO),
   ("READY", .READY),
   ("RESUMED", .RESUMED),
   ("RECONNECT", .RECONNECT),
   ("INVALID_SESSION", .INVALID_SESSION),
   ("APPLICATION_COMMAND_PERMISSIONS_UPDATE", .APPLICATION_COMMAND_PERMISSIONS_UPDATE),
   ("AUTO_MODERATION_RULE_CREATE", .AUTO_MODERATION_RULE_CREATE),
   ("AUTO_MODERATION_RULE_UPDATE", .AUTO_MODERATION_RULE_UPDATE),
   ("AUTO_MODERATION_RULE_DELETE", .AUTO_MODERATION_RULE_DELETE),
   ("AUTO_MODERATION_ACTION_EXECUTION", .AUTO_MODERATION_ACTION_EXECUTION),
   ("CHANNEL_CREATE", .CHANNEL_CREATE),
   ("CHANNEL_UPDATE", .CHANNEL_UPDATE),
   ("CHANNEL_DELETE", .CHANNEL_DELETE),
   ("CHANNEL_PINS_UPDATE", .CHANNEL_PINS_UPDATE),
   ("THREAD_CREATE", .THREAD_CREATE),
   ("THREAD_UPDATE", .THREAD_UPDATE),
   ("THREAD_DELETE", .THREAD_DELETE),
   ("THREAD_LIST_SYNC", .THREAD_LIST_SYNC),
   ("THREAD_MEMBER_UPDATE", .THREAD_MEMBER_UPDATE),
   ("THREAD_MEMBERS_UPDATE", .THREAD_MEMBERS_UPDATE),
   ("ENTITLEMENT_CREATE", .ENTITLEMENT_CREATE),
   ("ENTITLEMENT_UPDATE", .ENTITLEMENT_UPDATE),
   ("ENTITLEMENT_DELETE", .ENTITLEMENT_DELETE),
   ("GUILD_CREATE", .GUILD_CREATE),
   ("GUILD_UPDATE", .GUILD_UPDATE),
   ("GUILD_DELETE", .GUILD_DELETE),
   ("GUILD_AUDIT_LOG_ENTRY_CREATE", .GUILD_AUDIT_LOG_ENTRY_CREATE),
   ("GUILD_BAN_ADD", .GUILD_BAN_ADD),
   ("GUILD_BAN_REMOVE", .GUILD_BAN_REMOVE),
   ("GUILD_EMOJIS_UPDATE", .GUILD_EMOJIS_UPDATE),
   ("GUILD_STICKERS_UPDATE", .GUILD_STICKERS_UPDATE),
   ("GUILD_INTEGRATIONS_UPDATE", .GUILD_INTEGRATIONS_UPDATE),
   ("GUILD_MEMBER_ADD", .GUILD_MEMBER_ADD),
   ("GUILD_MEMBER_REMOVE", .GUILD_MEMBER_REMOVE),
   ("GUILD_MEMBER_UPDATE", .GUILD_MEMBER_UPDATE),
   ("GUILD_MEMBERS_CHUNK", .GUILD_MEMBERS_CHUNK),
   ("GUILD_ROLE_CREATE", .GUILD_ROLE_CREATE),
   ("GUILD_ROLE_UPDATE", .GUILD_ROLE_UPDATE),
   ("GUILD_ROLE_DELETE", .GUILD_ROLE_DELETE),
   ("GUILD_SCHEDULED_EVENT_CREATE", .GUILD_SCHEDULED_EVENT_CREATE),
   ("GUILD_SCHEDULED_EVENT_UPDATE", .GUILD_SCHEDULED_EVENT_UPDATE),
   ("GUILD_SCHEDULED_EVENT_DELETE", .GUILD_SCHEDULED_EVENT_DELETE),
   ("GUILD_SCHEDULED_EVENT_USER_ADD", .GUILD_SCHEDULED_EVENT_USER_ADD),
   ("GUILD_SCHEDULED_EVENT_USER_REMOVE", .GUILD_SCHEDULED_EVENT_USER_REMOVE),
   ("INTEGRATION_CREATE", .INTEGRATION_CREATE),
   ("INTEGRATION_UPDATE", .INTEGRATION_UPDATE),
   ("INTEGRATION_DELETE", .INTEGRATION_DELETE),
   ("INTERACTION_CREATE", .INTERACTION_CREATE),
   ("INVITE_CREATE", .INVITE_CREATE),
   ("INVITE_DELETE", .INVITE_DELETE),
   ("MESSAGE_CREATE", .MESSAGE_CREATE),
   ("MESSAGE_UPDATE", .MESSAGE_UPDATE),
   ("MESSAGE_DELETE", .MESSAGE_DELETE),
   ("MESSAGE_DELETE_BULK", .MESSAGE_DELETE_BULK),
   ("MESSAGE_REACTION_ADD", .MESSAGE_REACTION_ADD),
   ("MESSAGE_REACTION_REMOVE", .MESSAGE_REACTION_REMOVE),
   ("MESSAGE_REACTION_REMOVE_ALL", .MESSAGE_REACTION_REMOVE_ALL),
   ("MESSAGE_REACTION_REMOVE_EMOJI", .MESSAGE_REACTION_REMOVE_EMOJI),
   ("PRESENCE_UPDATE", .PRESENCE_UPDATE),
   ("STAGE_INSTANCE_CREATE", .STAGE_INSTANCE_CREATE),
   ("STAGE_INSTANCE_UPDATE", .STAGE_INSTANCE_UPDATE),
   ("STAGE_INSTANCE_DELETE", .STAGE_INSTANCE_DELETE),
   ("TYPING_START", .TYPING_START),
   ("USER_UPDATE", .USER_UPDATE),
   ("VOICE_STATE_UPDATE", .VOICE_STATE_UPDATE),
   ("VOICE_SERVER_UPDATE", .VOICE_SERVER_UPDATE),
   ("WEBHOOKS_UPDATE", .WEBHOOKS_UPDATE),
   ("MESSAGE_POLL_VOTE_ADD", .MESSAGE_POLL_VOTE_ADD),
   ("MESSAGE_POLL_VOTE_REMOVE", .MESSAGE_POLL_VOTE_REMOVE)]

/-- The set of known event-name tag strings. -/
def knownGatewayEventNames : List String :=
  gatewayEventNamePairs.map Prod.fst

/-- Deserialization of an event-name tag string: a known tag yields its
variant; any other string fails. The derived serde impl first tries the
tagged variants (an unknown string is an unknown-variant error) and then
the `#[serde(untagged)]` unit variant `Unknown`, whose UntaggedUnitVisitor
accepts only unit/none — so a string never reaches `Unknown`, despite the
source's doc comment calling it a catch-all. -/
def eventNameOfString (s : String) : Option GatewayReceiveEventName :=
  match gatewayEventNamePairs.find? (fun p => p.fst == s) with
  | some p => some p.snd
  | none => none

/-- Raw inbound envelope, mirroring `struct DiscordReceiveEvent`
(the op field still numeric). -/
structure DiscordReceiveEvent where
  t : GatewayReceiveEventName
  s : Option Int
  op : Int
  d : Option Json
deriving Repr

/-- Decoded envelope handed to the Manager, mirroring `struct ReceiveEvent`
(op resolved to `DiscordOpCode`). -/
structure ReceiveEvent where
  t : GatewayReceiveEventName
  s : Option Int
  op : DiscordOpCode
  d : Option Json
deriving Repr

/-- serde deserialization of `struct ReceiveMessageOpcode`: requires an
integer field `op` fitting an i8. -/
def parseReceiveMessageOpcode (v : Json) : Option Int :=
  match v.getField "op" with
  | some opv => opv.asI8
  | none => none

/-- The `t: GatewayReceiveEventName` field of the envelope: a known
string tag maps to its variant and an unknown string fails (see
`eventNameOfString`); null matches the untagged unit variant `Unknown`
(the only value that reaches it); a missing or non-string, non-null
value fails. -/
def parseEventNameField (v : Json) : Option GatewayReceiveEventName :=
  match v.getField "t" with
  | some (.str s) => eventNameOfString s
  | some .null => some .Unknown
  | some _ => none
  | none => none

/-- The `s: Option<i32>` field: missing or null gives `none`; an i32
gives `some`; anything else fails. -/
def parseSequenceField (v : Json) : Option (Option Int) :=
  match v.getField "s" with
  | some (.num n) => match Json.asI32 (.num n) with
    | some m => some (some m)
    | none => none
  | some .null => some none
  | some _ => none
  | none => some none

/-- The `d: Option<serde_json::Value>` field: missing or null gives `none`. -/
def parsePayloadField (v : Json) : Option (Option Json) :=
  match v.getField "d" with
  | some .null => some none
  | some j => some (some j)
  | none => some none

/-- serde deserialization of `struct DiscordReceiveEvent` from a JSON value. -/
def parseDiscordReceiveEvent (v : Json) : Option DiscordReceiveEvent :=
  match parseEventNameField v, parseSequenceField v,
        parseReceiveMessageOpcode v, parsePayloadField v with
  | some t, some s, some op, some d => some { t := t, s := s, op := op, d := d }
  | _, _, _, _ => none

/-- Classification of the text of an inbound websocket Text frame:
empty, nonempty but not valid JSON, or valid JSON with its parse. -/
inductive TextContent where
  | empty
  | invalid (s : String)
  | json (v : Json)

/-- An inbound websocket message: a Text frame, or any other frame kind
(binary/ping/pong/close), which the code maps to the empty string. -/
inductive WsMessage where
  | text (content : TextContent)
  | other

/-- One item yielded by the underlying stream: the stream ended
(`next()` returned None), the stream yielded an error, or a message. -/
inductive StreamItem where
  | closed
  | streamErr
  | msg (m : WsMessage)

/-- Outcome of `DiscordWebSocket::recv`: the Ok value
`(Option<ReceiveEvent>, bool)`, the Err string, or a Rust panic. -/
inductive RecvOutcome where
  | ok (value : Option ReceiveEvent × Bool)
  | err (msg : String)
  | panicked (msg : String)
deriving Repr

/-- `DiscordWebSocket::recv`, as a function of the next stream item.
`self.0.next().await.unwrap().unwrap()` panics on stream end and on a
stream error; non-Text messages become the empty string; an empty string
is returned as Err; the two `from_str(...).unwrap()` calls panic when the
text is not valid JSON or does not deserialize; `DiscordOpCode::from`
panics on an op outside the known enumeration. -/
def DiscordWebSocket.recv (item : StreamItem) : RecvOutcome :=
  match item with
  | .closed => .panicked "called Option::unwrap on a None value"
  | .streamErr => .panicked "called Result::unwrap on an Err value"
  | .msg m =>
    let message : TextContent :=
      match m with
      | .text t => t
      | .other => .empty
    match message with
    | .empty => .err "🔴 -> Error receiving message"
    | .invalid _ => .panicked "called Result::unwrap on an Err value"
    | .json v =>
      match parseReceiveMessageOpcode v with
      | none => .panicked "called Result::unwrap on an Err value"
      | some opNum =>
        match parseDiscordReceiveEvent v with
        | none => .panicked "called Result::unwrap on an Err value"
        | some rEvent =>
          match DiscordOpCode.fromI8 opNum with
          | none => .panicked "Invalid OpCode"
          | some code =>
            .ok (some { t := rEvent.t, s := rEvent.s, op := code, d := rEvent.d }, true)

/-- Connection properties of the Identify frame (`struct IdentifyProperties`). -/
structure IdentifyProperties where
  os : String
  browser : String
  device : String
deriving Repr, DecidableEq

/-- An activity object (`struct Activity`). -/
structure Activity where
  name : String
  type : Nat
  url : Option String
  state : Option String
deriving Repr, DecidableEq

/-- A presence update (`struct PresenceUpdate`). -/
structure PresenceUpdate where
  since : Nat
  activities : List Activity
  status : String
  afk : Bool
deriving Repr, DecidableEq

/-- Payloads of outbound frames (`enum WebSocketMessageData`). -/
inductive WebSocketMessageData where
  | Heartbeat (n : Nat)
  | Identify (token : String) (intents : Int) (properties : IdentifyProperties)
      (compress : Bool) (large_threshold : Int) (shard : Option (List Int))
      (presence : Option PresenceUpdate)
  | PresenceUpdateData (p : PresenceUpdate)
deriving Repr, DecidableEq

/-- An outbound frame (`struct WebSocketMessage`). -/
structure WebSocketMessage where
  op : Nat
  d : WebSocketMessageData
deriving Repr, DecidableEq

/-- The opcode constants declared on `impl DiscordWebSocket`. -/
def DiscordWebSocket.HEARTBEAT : Nat := 1

/-- Opcode constant for Identify frames. -/
def DiscordWebSocket.IDENTIFY : Nat := 2

/-- The identity of one underlying websocket stream; a fresh connection
would carry a fresh identifier. -/
structure DiscordWebSocket where
  streamId : Nat
deriving Repr, DecidableEq

/-- The default presence built inline by `DiscordWebSocket::send_identify`
when the caller passes `presence: None`. -/
def identifyDefaultPresence : PresenceUpdate :=
  { since := 0
    activities := [{ name := "with Rust"
                     type := 0
                     url := some "https://iamdhakrey.dev"
                     state := some "Enjoying Rust" }]
    status := "online"
    afk := false }

/-- The frame built and sent by `DiscordWebSocket::send_identify`:
intents default to 1 (with a warning), presence defaults to
`identifyDefaultPresence`, shard defaults to [0, 1], large_threshold
defaults to 50. -/
def DiscordWebSocket.send_identify (token : String) (intents : Option Int)
    (compress : Bool) (large_threshold : Option Int) (shard : Option (List Int))
    (presence : Option PresenceUpdate) : WebSocketMessage :=
  let int : Int := match intents with
    | some i => i
    | none => 1
  let pre : PresenceUpdate := presence.getD identifyDefaultPresence
  let shr : List Int := shard.getD [0, 1]
  { op := DiscordWebSocket.IDENTIFY
    d := .Identify token int
      { os := "linux", browser := "rustcord", device := "rustcord" }
      compress (large_threshold.getD 50) (some shr) (some pre) }

/-- The frame built and sent by `Manager::send_identify`: unlike the
DiscordWebSocket builder, intents, shard and presence are passed through
unchanged; only large_threshold is defaulted to 50. -/
def Manager.send_identify (token : String) (intents : Int) (compress : Bool)
    (large_threshold : Option Int) (shard : Option (List Int))
    (presence : Option PresenceUpdate) : WebSocketMessage :=
  { op := DiscordWebSocket.IDENTIFY
    d := .Identify token intents
      { os := "linux", browser := "rustcord", device := "rustcord" }
      compress (large_threshold.getD 50) shard presence }

/-- The heartbeat frame built by `DiscordWebSocket::send_heartbeat`. -/
def DiscordWebSocket.send_heartbeat : WebSocketMessage :=
  { op := DiscordWebSocket.HEARTBEAT, d := .Heartbeat 251 }

/-- Per-shard gateway manager state (`struct Manager`); the Instant
timestamps are seconds, the websocket is its stream identity. -/
structure Manager where
  ws : DiscordWebSocket
  last_heartbeat : Option Nat
  last_heartbeat_ack : Option Nat
  heartbeat_interval : Option Int
  token : String
  intents : Int
  shard_id : Nat
  total_shards : Nat
deriving Repr, DecidableEq

/-- `Manager::new`: both timestamps start None and the interval is
`Some(0)` (the local variable `heartbeat_interval = 0` wrapped in Some). -/
def Manager.new (token : String) (intents : Int) (shard_id : Nat)
    (total_shards : Nat) (ws : DiscordWebSocket) : Manager :=
  { ws := ws
    last_heartbeat := none
    last_heartbeat_ack := none
    heartbeat_interval := some 0
    token := token
    intents := intents
    shard_id := shard_id
    total_shards := total_shards }

/-- Seconds elapsed since a recorded instant (`Instant::elapsed().as_secs()`). -/
def elapsedSecs (now t : Nat) : Nat := now - t

/-- `Manager::is_required_heartbeat`, branch for branch: true when the
interval is unset, when no ack was ever received, or when no heartbeat was
ever sent; false when the last heartbeat was sent less than 5 seconds ago;
true when the last ack is more than 15 seconds old, when the last
heartbeat is more than 5 seconds old, and in the final fallthrough. -/
def Manager.is_required_heartbeat (m : Manager) (now : Nat) : Bool :=
  match m.heartbeat_interval with
  | none => true
  | some _ =>
    match m.last_heartbeat_ack with
    | none => true
    | some ack =>
      match m.last_heartbeat with
      | none => true
      | some hb =>
        if elapsedSecs now hb < 5 then false
        else if elapsedSecs now ack > 15 then true
        else if elapsedSecs now hb > 5 then true
        else true

/-- `Manager::handle_heartbeat`: when a heartbeat is due, send it and
record the send time; returns the new state and the frame sent, if any. -/
def Manager.handle_heartbeat (m : Manager) (now : Nat) :
    Manager × Option WebSocketMessage :=
  if m.is_required_heartbeat now then
    ({ m with last_heartbeat := some now }, some DiscordWebSocket.send_heartbeat)
  else
    (m, none)

/-- Outcome of `Manager::handle_event`: either the loop continues with a
new state and the list of events dispatched to handlers, or the task
panicked inside `recv`. -/
inductive HandleEventOutcome where
  | normal (m : Manager) (dispatched : List ReceiveEvent)
  | panicked (msg : String)
deriving Repr

/-- `Manager::handle_event`: on a received event, a HeartbeatAck op
records the ack instant and dispatches nothing; any other op leaves the
liveness state unchanged and forwards the event to dispatch; a None event
or a recv error is logged and changes nothing; a recv panic propagates. -/
def Manager.handle_event (m : Manager) (now : Nat) (item : StreamItem) :
    HandleEventOutcome :=
  match DiscordWebSocket.recv item with
  | .ok (some event, _) =>
    if DiscordOpCode.eq event.op .HeartbeatAck then
      .normal { m with last_heartbeat_ack := some now } []
    else
      .normal m [event]
  | .ok (none, _) => .normal m []
  | .err _ => .normal m []
  | .panicked s => .panicked s

/-- Outcome of one iteration of the shard task loop in
`ShardManager::start`: the loop continues with a new manager state and
the events dispatched during the tick, or the task panicked. -/
inductive RunnerOutcome where
  | next (m : Manager) (dispatched : List ReceiveEvent)
  | panicked (msg : String)
deriving Repr

/-- The body of the shard task loop in `ShardManager::start`:
`handle_heartbeat` then `handle_event` (then a 100 ms sleep). There is no
reconnect or restart anywhere in the loop: the Manager (and its websocket)
created before the loop is the only session the task ever uses. -/
def runnerTick (m : Manager) (now : Nat) (item : StreamItem) : RunnerOutcome :=
  let stepped := m.handle_heartbeat now
  match Manager.handle_event stepped.fst now item with
  | .normal m2 dispatched => .next m2 dispatched
  | .panicked s => .panicked s

/-- Modelled from the spec: the rustcord crate declares `pub mod message`
but message.rs is absent from src/; the author type is reconstructed from
the handler code, which reads `author.bot` as an `Option<bool>` via
`unwrap_or(false)` and `author.name`, together with the field names of
models/user.rs. Only the fields the embedded handlers consult are carried. -/
structure User where
  id : String
  name : String
  bot : Option Bool
deriving Repr, DecidableEq

/-- A channel message (`struct ChannelMessage` in message.rs, whose
rustcord copy is absent from src/; fields follow src/src/message.rs,
with heavy nested payload types the embedded handlers never read carried
as raw JSON). -/
structure ChannelMessage where
  id : String
  channel_id : String
  author : User
  content : String
  timestamp : String
  edited_timestamp : Option String
  tts : Bool
  mention_everyone : Bool
  nonce : Option String
  pinned : Bool
  webhook_id : Option String
  type : Int
  application_id : String
  flags : Nat
deriving Repr, DecidableEq

/-- `struct UserResponse` in response.rs, the identity returned by login. -/
structure UserResponse where
  id : String
  username : String
  avatar : String
  discriminator : String
  public_flags : Nat
  flags : Nat
  bot : Bool
  banner : Option String
  accent_color : Option Nat
  global_name : Option String
  avatar_description : Option String
  banner_color : Option String
  clan : Option String
  mfa_enabled : Bool
  locale : String
  premium_type : Nat
  email : Option String
  verified : Bool
  bio : Option String
deriving Repr, DecidableEq

/-- The HTTP client state (`struct HTTPClient`): the reqwest client handle
carries no observable state, so only the token remains. -/
structure HTTPClient where
  token : String
deriving Repr, DecidableEq

/-- `HTTPClient::new`. -/
def HTTPClient.new : HTTPClient := { token := "" }

/-- The response the remote service gives to the login request: a status
code and, when the body deserializes as a `UserResponse`, that value. -/
structure HttpResponse where
  status : Nat
  body : Option UserResponse
deriving Repr, DecidableEq

/-- Result of sending the login request over the wire. -/
inductive HttpSendResult where
  | response (r : HttpResponse)
  | transportErr (msg : String)
deriving Repr, DecidableEq

/-- Observable outcome of `HTTPClient::login`: a UserResponse value, a
Rust panic, or a `process::exit` with a code. -/
inductive LoginOutcome where
  | ok (u : UserResponse)
  | panicked (msg : String)
  | exited (code : Nat)
deriving Repr, DecidableEq

/-- `StatusCode::is_success`: 2xx. -/
def statusIsSuccess (status : Nat) : Bool :=
  200 ≤ status && status < 300

/-- `HTTPClient::login`: stores the token, then on a success status
returns the parsed body (panicking if it fails to parse), on any other
status panics with "Invalid token", and on a transport error logs and
calls `exit(2)`. -/
def HTTPClient.login (c : HTTPClient) (token : String) (res : HttpSendResult) :
    HTTPClient × LoginOutcome :=
  let c2 : HTTPClient := { c with token := token }
  match res with
  | .response r =>
    if statusIsSuccess r.status then
      match r.body with
      | some u => (c2, .ok u)
      | none => (c2, .panicked "called Result::unwrap on an Err value")
    else
      (c2, .panicked "🔴 Invalid token")
  | .transportErr _ => (c2, .exited 2)

/-- The client handle (`struct Client`). Modelled from the spec: the
`Client::send_message` method the handlers call is absent from src/, so
the outbound message action is carried as a function field giving the
request/response outcome for a (channel_id, content, embed) triple. -/
structure Client where
  token : Option String
  http : HTTPClient
  send_message : String → String → Option Json → Except String Unit

/-- `Client::login`: records the token on the client and delegates to
`HTTPClient::login`. -/
def Client.login (cl : Client) (token : String) (res : HttpSendResult) :
    Client × LoginOutcome :=
  let stepped := cl.http.login token res
  ({ cl with token := some token, http := stepped.fst }, stepped.snd)

/-- Result type of handler operations (`MessageHandlerResult`), with the
boxed error carried as a string. -/
def MessageHandlerResult := Except String Unit

/-- A message handler (`trait MessageHandler`): the create hook is
required; update and delete hooks default to Ok(()). -/
structure MessageHandler where
  on_message_create : ChannelMessage → Client → Except String Unit
  on_message_update : ChannelMessage → Client → Except String Unit :=
    fun _ _ => Except.ok ()
  on_message_delete : String → String → Client → Except String Unit :=
    fun _ _ _ => Except.ok ()

/-- `EchoMessageHandler`: ignores bot-authored messages, otherwise echoes
the content back through the client and propagates a send failure. -/
def EchoMessageHandler : MessageHandler :=
  { on_message_create := fun message client =>
      if message.author.bot.getD false then
        Except.ok ()
      else
        match client.send_message message.channel_id
            ("Echo: " ++ message.content) none with
        | .error e => .error e
        | .ok _ => Except.ok () }

/-- Substring test used for "ping" detection (`str::contains`). -/
def containsSubstring (s pat : String) : Bool :=
  (s.splitOn pat).length != 1

/-- `PingPongHandler`: ignores bot-authored messages; answers "Pong!" when
the lowercased content contains "ping", propagating a send failure. -/
def PingPongHandler : MessageHandler :=
  { on_message_create := fun message client =>
      if message.author.bot.getD false then
        Except.ok ()
      else
        if containsSubstring message.content.toLower "ping" then
          match client.send_message message.channel_id "Pong! 🏓" none with
          | .error e => .error e
          | .ok _ => Except.ok ()
        else
          Except.ok () }

/-- `split_whitespace`: split on whitespace, dropping empty fragments. -/
def splitWhitespace (s : String) : List String :=
  (s.split Char.isWhitespace).filter (fun part => part ≠ "")

/-- A prefix-command handler (`struct CommandHandler`). The source field
`prefix` is a reserved word in Lean and is rendered `cmdPrefix`; commands
are an insertion-ordered association list standing for the HashMap. -/
structure CommandHandler where
  cmdPrefix : String
  commands : List (String × (ChannelMessage → Client → Except String Unit))

/-- `impl MessageHandler for CommandHandler`: ignores bot messages; when
the content starts with the prefix, the first whitespace-separated word
after it selects a command, whose failure is propagated (the source uses
the ? operator here); everything else is Ok(()). -/
def CommandHandler.on_message_create (h : CommandHandler)
    (message : ChannelMessage) (client : Client) : Except String Unit :=
  if message.author.bot.getD false then
    Except.ok ()
  else
    if message.content.startsWith h.cmdPrefix then
      let command_part := message.content.drop h.cmdPrefix.length
      let parts := splitWhitespace command_part
      match parts.head? with
      | some command_name =>
        match h.commands.find? (fun p => p.fst == command_name) with
        | some p =>
          match p.snd message client with
          | .error e => .error e
          | .ok _ => Except.ok ()
        | none => Except.ok ()
      | none => Except.ok ()
    else
      Except.ok ()

/-- The prefix listener registry (`struct PrefixListenerRegistry`): the
prefix -> CommandHandler HashMap as an association list in iteration
order, plus the default (non-prefix) handlers in registration order. -/
structure PrefixListenerRegistry where
  prefix_handlers : List (String × CommandHandler)
  default_handlers : List MessageHandler

/-- The prefix loop of `PrefixListenerRegistry::process_message`: the
first handler whose prefix starts the content is invoked and the loop
breaks; `handled` becomes true only when that invocation succeeded (its
error is logged, not propagated). Returns the handled flag and the
results of the invocations made. -/
def prefixHandlerLoop (handlers : List (String × CommandHandler))
    (message : ChannelMessage) (client : Client) :
    Bool × List (Except String Unit) :=
  match handlers with
  | [] => (false, [])
  | (pfx, handler) :: rest =>
    if message.content.startsWith pfx then
      let r := handler.on_message_create message client
      (match r with | .ok _ => true | .error _ => false, [r])
    else
      prefixHandlerLoop rest message client

/-- The default-handler loop shared by `process_message` and the legacy
registry loops: every handler is invoked in order; failures are logged and
do not stop the loop. Returns the invocation results in order. -/
def runCreateHandlers (handlers : List MessageHandler)
    (message : ChannelMessage) (client : Client) : List (Except String Unit) :=
  match handlers with
  | [] => []
  | handler :: rest =>
    handler.on_message_create message client :: runCreateHandlers rest message client

/-- `PrefixListenerRegistry::process_message`: bot-authored messages are
ignored immediately; otherwise the prefix loop runs, and when no prefix
handler succeeded every default handler runs. Always returns Ok(()); the
second component records every handler invocation made, in order. -/
def PrefixListenerRegistry.process_message (reg : PrefixListenerRegistry)
    (message : ChannelMessage) (client : Client) :
    Except String Unit × List (Except String Unit) :=
  if message.author.bot.getD false then
    (Except.ok (), [])
  else
    let prefixStep := prefixHandlerLoop reg.prefix_handlers message client
    if prefixStep.fst then
      (Except.ok (), prefixStep.snd)
    else
      let defaults := runCreateHandlers reg.default_handlers message client
      (Except.ok (), prefixStep.snd ++ defaults)

/-- The handler registry (`struct MessageHandlerRegistry`): legacy
handlers in registration order plus the prefix registry. -/
structure MessageHandlerRegistry where
  handlers : List MessageHandler
  prefix_registry : PrefixListenerRegistry

/-- `MessageHandlerRegistry::handle_message_create`: the prefix registry
runs first (its error would only be logged), then every legacy handler in
registration order, each failure logged and swallowed; the caller always
gets Ok(()). The second component records every handler invocation made. -/
def MessageHandlerRegistry.handle_message_create (reg : MessageHandlerRegistry)
    (message : ChannelMessage) (client : Client) :
    Except String Unit × List (Except String Unit) :=
  let prefixStep := reg.prefix_registry.process_message message client
  let legacy := runCreateHandlers reg.handlers message client
  (Except.ok (), prefixStep.snd ++ legacy)

/-- The presence carried by an Identify frame, `none` for other frames. -/
def identifyFramePresence (msg : WebSocketMessage) : Option PresenceUpdate :=
  match msg.d with
  | .Identify _ _ _ _ _ _ p => p
  | _ => none

/-- Liveness state with a 16-second-stale ack but a ping sent 3 seconds
before the reference instant 100. -/
def staleAckRecentPingManager : Manager :=
  { ws := { streamId := 0 }
    last_heartbeat := some 97
    last_heartbeat_ack := some 84
    heartbeat_interval := some 0
    token := "T"
    intents := 1
    shard_id := 0
    total_shards := 1 }

/-- Liveness state with a 16-second-stale ack and a ping sent 20 seconds
before the reference instant 100. -/
def staleAckOldPingManager : Manager :=
  { ws := { streamId := 0 }
    last_heartbeat := some 80
    last_heartbeat_ack := some 84
    heartbeat_interval := some 0
    token := "T"
    intents := 1
    shard_id := 0
    total_shards := 1 }

/-- A freshly constructed manager for shard 0 of 1. -/
def shardZeroManager : Manager :=
  Manager.new "T" 1 0 1 { streamId := 0 }

/-- A well-formed envelope whose op code 5 is outside the known enumeration. -/
def invalidOpFrame : Json :=
  .obj [("op", .num 5), ("t", .null), ("s", .null), ("d", .null)]

/-- A dispatch envelope whose event-name tag is not a known event name. -/
def futureEventFrame : Json :=
  .obj [("t", .str "SOME_FUTURE_EVENT"), ("s", .null), ("op", .num 0), ("d", .null)]

/-- A heartbeat-acknowledgement envelope. -/
def heartbeatAckFrame : Json :=
  .obj [("t", .null), ("s", .null), ("op", .num 11), ("d", .null)]

/-- A MESSAGE_CREATE dispatch envelope. -/
def messageCreateFrame : Json :=
  .obj [("t", .str "MESSAGE_CREATE"), ("s", .num 1), ("op", .num 0), ("d", .null)]

/-- A human (non-bot) author. -/
def sampleUser : User := { id := "42", name := "alice", bot := some false }

/-- A bot author. -/
def botUser : User := { id := "99", name := "helper", bot := some true }

/-- A plain channel message from a human author. -/
def sampleMessage : ChannelMessage :=
  { id := "1"
    channel_id := "c1"
    author := sampleUser
    content := "hello"
    timestamp := "t0"
    edited_timestamp := none
    tts := false
    mention_everyone := false
    nonce := none
    pinned := false
    webhook_id := none
    type := 0
    application_id := ""
    flags := 0 }

/-- The same channel message authored by a bot. -/
def botMessage : ChannelMessage := { sampleMessage with author := botUser }

/-- A client whose outbound sends always succeed. -/
def sampleClient : Client :=
  { token := none
    http := HTTPClient.new
    send_message := fun _ _ _ => Except.ok () }

/-- A handler whose create hook always fails. -/
def failingHandler : MessageHandler :=
  { on_message_create := fun _ _ => Except.error "boom" }

/-- A handler whose create hook always succeeds. -/
def succeedingHandler : MessageHandler :=
  { on_message_create := fun _ _ => Except.ok () }

/-- A registry with no prefix handlers and no default handlers. -/
def emptyPrefixRegistry : PrefixListenerRegistry :=
  { prefix_handlers := [], default_handlers := [] }

/-- A command handler for the "!" prefix with no commands. -/
def sampleCommandHandler : CommandHandler :=
  { cmdPrefix := "!", commands := [] }

/-- Boolean opcode equality agrees with propositional equality (the
PartialEq impl is reflexive case matching with a false catch-all). -/
theorem DiscordOpCode.eq_true_iff (a b : DiscordOpCode) :
    DiscordOpCode.eq a b = true ↔ a = b := by
  cases a <;> cases b <;> decide

/-- An association list over strings has no hit for a key outside its
key set. -/
theorem find?_assoc_eq_none {α : Type} (l : List (String × α)) (s : String)
    (h : s ∉ l.map Prod.fst) :
    l.find? (fun p => p.fst == s) = none := by
  apply List.find?_eq_none.mpr
  intro x hx
  simp only [beq_iff_eq]
  intro heq
  exact h (by rw [← heq]; exact List.mem_map_of_mem Prod.fst hx)

/-- C4 (confirmed): whenever no heartbeat ack has ever been recorded,
`Manager::is_required_heartbeat` returns true, for every last-sent
timestamp and every interval value. -/
theorem is_required_heartbeat_true_when_no_ack
    (ws : DiscordWebSocket) (hb : Option Nat) (itv : Option Int)
    (tok : String) (ints : Int) (sid tot now : Nat) :
    Manager.is_required_heartbeat
      { ws := ws, last_heartbeat := hb, last_heartbeat_ack := none
        heartbeat_interval := itv, token := tok, intents := ints
        shard_id := sid, total_shards := tot } now = true := by
  cases itv <;> rfl

/-- C1 (counterexample): with the interval negotiated and the last ack 16
seconds stale, `is_required_heartbeat` nevertheless returns false when the
last heartbeat was sent 3 seconds ago — the check is not independent of
the last-sent timestamp. -/
theorem is_required_heartbeat_false_despite_stale_ack :
    Manager.is_required_heartbeat staleAckRecentPingManager 100 = false := by
  rfl

/-- C1 (amended): with the interval negotiated and the last ack exactly 16
seconds stale, `is_required_heartbeat` returns true provided the last
heartbeat is at least 5 seconds old or was never sent. -/
theorem is_required_heartbeat_true_for_stale_ack_old_ping
    (m : Manager) (now : Nat)
    (hitv : m.heartbeat_interval.isSome = true)
    (hack : m.last_heartbeat_ack = some (now - 16))
    (hnow : 16 ≤ now)
    (hhb : ∀ t, m.last_heartbeat = some t → 5 ≤ now - t) :
    m.is_required_heartbeat now = true := by
  cases hIv : m.heartbeat_interval with
  | none => rw [hIv] at hitv; simp at hitv
  | some iv =>
    cases hHb : m.last_heartbeat with
    | none =>
      simp only [Manager.is_required_heartbeat, hIv, hack, hHb]
    | some t =>
      have h5 : 5 ≤ now - t := hhb t hHb
      have h16 : now - (now - 16) = 16 := Nat.sub_sub_self hnow
      simp only [Manager.is_required_heartbeat, hIv, hack, hHb, elapsedSecs, h16]
      rw [if_neg (by omega)]
      rw [if_pos (by omega)]

/-- C1 (witness): the amended statement at the concrete stale-ack state
whose last ping is 20 seconds old. -/
theorem is_required_heartbeat_true_for_stale_ack_old_ping_witness :
    Manager.is_required_heartbeat staleAckOldPingManager 100 = true :=
  is_required_heartbeat_true_for_stale_ack_old_ping staleAckOldPingManager 100
    rfl rfl (by decide)
    (fun t ht => by
      simp only [show staleAckOldPingManager.last_heartbeat = some 80 from rfl,
        Option.some.injEq] at ht
      omega)

/-- C2 (counterexample): a well-formed frame whose op code 5 is outside
the known enumeration makes `recv` panic (via `panic!("Invalid OpCode")`
in `From<i8> for DiscordOpCode`) instead of returning an error value. -/
theorem recv_panics_on_unknown_opcode :
    DiscordWebSocket.recv (.msg (.text (.json invalidOpFrame)))
      = .panicked "Invalid OpCode" := by
  rfl

/-- C2 (amended): only the empty (or non-Text) frame is returned to the
caller as an Err; a frame that is not valid JSON, or whose op field fails
to parse, panics at the unwrap calls, and a parseable envelope whose op is
outside the known enumeration panics with "Invalid OpCode". -/
theorem recv_error_and_panic_behaviour :
    DiscordWebSocket.recv (.msg .other) = .err "🔴 -> Error receiving message"
    ∧ DiscordWebSocket.recv (.msg (.text .empty))
        = .err "🔴 -> Error receiving message"
    ∧ (∀ s : String,
        DiscordWebSocket.recv (.msg (.text (.invalid s)))
          = .panicked "called Result::unwrap on an Err value")
    ∧ (∀ v : Json, parseReceiveMessageOpcode v = none →
        DiscordWebSocket.recv (.msg (.text (.json v)))
          = .panicked "called Result::unwrap on an Err value")
    ∧ (∀ (v : Json) (n : Int) (ev : DiscordReceiveEvent),
        parseReceiveMessageOpcode v = some n →
        parseDiscordReceiveEvent v = some ev →
        DiscordOpCode.fromI8 n = none →
        DiscordWebSocket.recv (.msg (.text (.json v)))
          = .panicked "Invalid OpCode") := by
  refine ⟨rfl, rfl, fun s => rfl, ?_, ?_⟩
  · intro v hop
    simp [DiscordWebSocket.recv, hop]
  · intro v n ev hop hev hcode
    simp [DiscordWebSocket.recv, hop, hev, hcode]

/-- C2 (witness): the amended behaviour at concrete frames — invalid text
panics, and the parseable op-5 envelope panics at the opcode conversion. -/
theorem recv_error_and_panic_behaviour_witness :
    DiscordWebSocket.recv (.msg (.text (.invalid "not json")))
      = .panicked "called Result::unwrap on an Err value"
    ∧ DiscordWebSocket.recv (.msg (.text (.json invalidOpFrame)))
      = .panicked "Invalid OpCode" :=
  ⟨recv_error_and_panic_behaviour.2.2.1 "not json",
   recv_error_and_panic_behaviour.2.2.2.2 invalidOpFrame 5
     { t := .Unknown, s := none, op := 5, d := none } rfl rfl rfl⟩

/-- C3 (counterexample): when the stream yields an error during the
Active loop, the shard task panics at the unwrap inside `recv`; it does
not transition to any Faulted state, and no fresh session is created — the
loop in `ShardManager::start` contains no reconnect path at all. -/
theorem runner_tick_stream_error_panics :
    runnerTick shardZeroManager 100 .streamErr
      = .panicked "called Result::unwrap on an Err value" := by
  rfl

/-- C3 (amended): a stream error or connection close panics the shard
task (there is no Faulted state and no restart from Connecting), while the
caught empty-frame receive error merely continues the loop with the same
manager, dispatching nothing, and in particular the same session. -/
theorem runner_tick_fault_behaviour (m : Manager) (now : Nat) :
    runnerTick m now .closed = .panicked "called Option::unwrap on a None value"
    ∧ runnerTick m now .streamErr
        = .panicked "called Result::unwrap on an Err value"
    ∧ runnerTick m now (.msg (.text .empty))
        = .next (m.handle_heartbeat now).fst []
    ∧ ((m.handle_heartbeat now).fst).ws = m.ws := by
  refine ⟨rfl, rfl, rfl, ?_⟩
  unfold Manager.handle_heartbeat
  split <;> rfl

/-- C5 (counterexample): the Identify frame built by `Manager::send_identify`
with credentials "T", intents 513, shard (0, 2) and no presence carries a
null presence, not the documented default placeholder. -/
theorem manager_identify_presence_null :
    identifyFramePresence
      (Manager.send_identify "T" 513 false (some 50) (some [0, 2]) none)
      = none := by
  rfl

/-- C5 (amended): with credentials "T", intents 513, shard (0, 2) and no
presence, the Identify frame built by `DiscordWebSocket::send_identify`
has op 2, intents 513, shard [0, 2], large_threshold 50 and the documented
default online presence; the frame built by `Manager::send_identify` has
the same op, intents, shard and large_threshold but a null presence. -/
theorem identify_build_concrete_scenario :
    DiscordWebSocket.send_identify "T" (some 513) false none (some [0, 2]) none
      = { op := 2
          d := .Identify "T" 513
            { os := "linux", browser := "rustcord", device := "rustcord" }
            false 50 (some [0, 2]) (some identifyDefaultPresence) }
    ∧ identifyDefaultPresence.status = "online"
    ∧ identifyDefaultPresence.since = 0
    ∧ Manager.send_identify "T" 513 false (some 50) (some [0, 2]) none
      = { op := 2
          d := .Identify "T" 513
            { os := "linux", browser := "rustcord", device := "rustcord" }
            false 50 (some [0, 2]) none } :=
  ⟨rfl, rfl, rfl, rfl⟩

/-- C6 (confirmed): with two registered handlers of which the first
always fails and the second always succeeds, the registry dispatch
invokes both in order, returns Ok to the caller, and does not propagate
the first handler's failure. -/
theorem dispatch_isolation
    (m : ChannelMessage) (c : Client) (e : String) (h1 h2 : MessageHandler)
    (hfail : h1.on_message_create m c = .error e)
    (hok : h2.on_message_create m c = Except.ok ()) :
    MessageHandlerRegistry.handle_message_create
      { handlers := [h1, h2], prefix_registry := emptyPrefixRegistry } m c
      = (Except.ok (), [.error e, Except.ok ()]) := by
  have hpm : PrefixListenerRegistry.process_message emptyPrefixRegistry m c
      = (Except.ok (), []) := by
    unfold PrefixListenerRegistry.process_message
    split <;> rfl
  simp [MessageHandlerRegistry.handle_message_create, hpm,
    runCreateHandlers, hfail, hok]

/-- C6 (witness): the isolation property at a concrete message, client
and pair of handlers. -/
theorem dispatch_isolation_witness :
    MessageHandlerRegistry.handle_message_create
      { handlers := [failingHandler, succeedingHandler]
        prefix_registry := emptyPrefixRegistry } sampleMessage sampleClient
      = (Except.ok (), [.error "boom", Except.ok ()]) :=
  dispatch_isolation sampleMessage sampleClient "boom"
    failingHandler succeedingHandler rfl rfl

/-- C7 (counterexample): when the remote service answers the login
request with status 401, `HTTPClient::login` panics with "Invalid token"
instead of returning a typed error value to the caller. -/
theorem login_invalid_token_panics :
    (HTTPClient.new.login "T" (.response { status := 401, body := none })).snd
      = .panicked "🔴 Invalid token" := by
  rfl

/-- C7 (amended): a non-success status makes `HTTPClient::login` (and
`Client::login`, which delegates to it before any shard machinery runs)
panic with "Invalid token", and a transport error makes it exit the
process with code 2; no typed error is ever returned to the caller. -/
theorem login_failure_aborts
    (c : HTTPClient) (cl : Client) (tok : String) (st : Nat)
    (body : Option UserResponse) (msg : String)
    (hst : statusIsSuccess st = false) :
    (c.login tok (.response { status := st, body := body })).snd
        = .panicked "🔴 Invalid token"
    ∧ (c.login tok (.transportErr msg)).snd = .exited 2
    ∧ (cl.login tok (.response { status := st, body := body })).snd
        = .panicked "🔴 Invalid token" := by
  refine ⟨?_, rfl, ?_⟩
  · simp [HTTPClient.login, hst]
  · simp [Client.login, HTTPClient.login, hst]

/-- C7 (witness): the abort behaviour at status 500 and at a concrete
transport error. -/
theorem login_failure_aborts_witness :
    (HTTPClient.new.login "T" (.response { status := 500, body := none })).snd
        = .panicked "🔴 Invalid token"
    ∧ (HTTPClient.new.login "T" (.transportErr "dns")).snd = .exited 2
    ∧ (sampleClient.login "T" (.response { status := 500, body := none })).snd
        = .panicked "🔴 Invalid token" :=
  login_failure_aborts HTTPClient.new sampleClient "T" 500 none "dns" (by decide)

/-- C8 (confirmed): for every envelope the runner receives, a HeartbeatAck
op records the ack instant and dispatches nothing, and any other op
forwards exactly that event to dispatch and leaves the manager — in
particular its last-acknowledged timestamp — unchanged. -/
theorem handle_event_ack_vs_dispatch
    (m : Manager) (now : Nat) (item : StreamItem) (ev : ReceiveEvent) (b : Bool)
    (hrecv : DiscordWebSocket.recv item = .ok (some ev, b)) :
    (ev.op = .HeartbeatAck →
      m.handle_event now item
        = .normal { m with last_heartbeat_ack := some now } [])
    ∧ (ev.op ≠ .HeartbeatAck →
      m.handle_event now item = .normal m [ev]) := by
  constructor
  · intro hop
    simp [Manager.handle_event, hrecv, DiscordOpCode.eq_true_iff, hop]
  · intro hop
    simp [Manager.handle_event, hrecv, DiscordOpCode.eq_true_iff, hop]

/-- C8 (witness): a heartbeat-ack envelope updates the ack timestamp and
dispatches nothing, and a MESSAGE_CREATE dispatch envelope is forwarded
with the manager unchanged. -/
theorem handle_event_ack_vs_dispatch_witness :
    shardZeroManager.handle_event 100 (.msg (.text (.json heartbeatAckFrame)))
      = .normal { shardZeroManager with last_heartbeat_ack := some 100 } []
    ∧ shardZeroManager.handle_event 100 (.msg (.text (.json messageCreateFrame)))
      = .normal shardZeroManager
          [{ t := .MESSAGE_CREATE, s := some 1, op := .Dispatch, d := none }] :=
  ⟨(handle_event_ack_vs_dispatch shardZeroManager 100
      (.msg (.text (.json heartbeatAckFrame)))
      { t := .Unknown, s := none, op := .HeartbeatAck, d := none } true rfl).1 rfl,
   (handle_event_ack_vs_dispatch shardZeroManager 100
      (.msg (.text (.json messageCreateFrame)))
      { t := .MESSAGE_CREATE, s := some 1, op := .Dispatch, d := none } true rfl).2
     (by decide)⟩

/-- C9 (code_bug): contrary to the claim and to the source's own doc
comment on `Unknown` ("catch-all for any event that is not yet
implemented"), an event-name tag outside the known set fails
deserialization — serde's untagged unit variant accepts only null — so a
dispatch frame tagged SOME_FUTURE_EVENT fails the envelope parse and
`recv` panics at its unwrap instead of yielding the Unknown event;
`Unknown` is reachable only from a null tag. -/
theorem unknown_event_name_fails_decode :
    (∀ s : String, s ∉ knownGatewayEventNames → eventNameOfString s = none)
    ∧ parseDiscordReceiveEvent futureEventFrame = none
    ∧ DiscordWebSocket.recv (.msg (.text (.json futureEventFrame)))
        = .panicked "called Result::unwrap on an Err value"
    ∧ parseEventNameField heartbeatAckFrame = some .Unknown := by
  refine ⟨?_, rfl, rfl, rfl⟩
  intro s h
  unfold eventNameOfString
  rw [find?_assoc_eq_none gatewayEventNamePairs s h]

/-- C9 (witness): the failing decode at the concrete tag
SOME_FUTURE_EVENT. -/
theorem unknown_event_name_fails_decode_witness :
    eventNameOfString "SOME_FUTURE_EVENT" = none :=
  unknown_event_name_fails_decode.1 "SOME_FUTURE_EVENT" (by decide)

/-- C10 (confirmed): a bot-authored message is dropped by
`process_message` with Ok and no handler invocation at all, and each
built-in handler's create hook returns Ok without acting on it. -/
theorem bot_messages_ignored
    (m : ChannelMessage) (c : Client) (reg : PrefixListenerRegistry)
    (ch : CommandHandler) (hbot : m.author.bot = some true) :
    reg.process_message m c = (Except.ok (), [])
    ∧ EchoMessageHandler.on_message_create m c = Except.ok ()
    ∧ PingPongHandler.on_message_create m c = Except.ok ()
    ∧ ch.on_message_create m c = Except.ok () := by
  have hb : m.author.bot.getD false = true := by rw [hbot]; rfl
  refine ⟨?_, ?_, ?_, ?_⟩
  · simp [PrefixListenerRegistry.process_message, hb]
  · simp [EchoMessageHandler, hb]
  · simp [PingPongHandler, hb]
  · simp [CommandHandler.on_message_create, hb]

/-- C10 (witness): the bot-drop property at a concrete bot message,
client, registry and command handler. -/
theorem bot_messages_ignored_witness :
    emptyPrefixRegistry.process_message botMessage sampleClient
        = (Except.ok (), [])
    ∧ EchoMessageHandler.on_message_create botMessage sampleClient
        = Except.ok ()
    ∧ PingPongHandler.on_message_create botMessage sampleClient
        = Except.ok ()
    ∧ sampleCommandHandler.on_message_create botMessage sampleClient
        = Except.ok () :=
  bot_messages_ignored botMessage sampleClient emptyPrefixRegistry
    sampleCommandHandler rfl

end Rustycord
